import Mathlib

/-!
Verification of the gym-management backend's payment lifecycle and heuristic
scoring engines, shallowly embedded from the Python sources:

* `app/services/payment_service.py` — payment creation, status updates,
  failure processing with retry scheduling, history log, retryable query;
* `app/agents/engagement/member_engagement_agent.py` — churn-risk scoring and
  retention-recommendation tiers;
* `app/agents/operations/operations_agent.py` — maintenance prediction and
  days-until-failure estimate;
* `app/agents/financial/financial_agent.py` — renewal offers and revenue
  forecast;
* `app/agents/base/agent.py` — the orchestrator's `run` wrapper.

Conventions: money and scores are exact rationals (`ℚ`), timestamps are `Int`
(hours for payment-retry arithmetic, days for the scoring engines), counts are
`Nat`.  Each Python service method that commits to the database more than once
is modelled as returning the sequence of committed states, so that the state
visible between commits is part of the model.
-/

namespace GymAI

/-! ### Payment data model (`app/models/payment.py`) -/

/-- `PaymentStatus` enumeration from `app/models/payment.py`. -/
inductive PaymentStatus where
  | pending
  | processing
  | succeeded
  | failed
  | refunded
  | canceled
deriving DecidableEq

/-- The string value of each `PaymentStatus` member (`str, enum.Enum`). -/
def PaymentStatus.value : PaymentStatus → String
  | .pending => "pending"
  | .processing => "processing"
  | .succeeded => "succeeded"
  | .failed => "failed"
  | .refunded => "refunded"
  | .canceled => "canceled"

/-- The columns of the `payments` table that the payment service reads or
writes.  Timestamps are hours since an arbitrary epoch. -/
structure Payment where
  id : Nat
  memberId : Nat
  amount : ℚ
  status : PaymentStatus
  failureReason : Option String
  failureCode : Option String
  retryCount : Nat
  nextRetryAt : Option Int
  paidAt : Option Int
  refundedAt : Option Int
  updatedAt : Int
deriving DecidableEq

/-- A row of the `payment_history` table (`PaymentHistory` model). -/
structure PaymentHistory where
  paymentId : Nat
  eventType : String
  previousStatus : Option String
  newStatus : Option String
  metadata : Option String
deriving DecidableEq

/-- The database state the payment service manipulates: the `payments` table
and the append-only `payment_history` table (in creation order). -/
structure PaymentDB where
  payments : List Payment
  history : List PaymentHistory
deriving DecidableEq

/-- `PaymentService.get_payment`: `SELECT ... WHERE Payment.id == payment_id`. -/
def getPayment (db : PaymentDB) (pid : Nat) : Option Payment :=
  db.payments.find? (fun x => x.id == pid)

/-- Writing back a mutated ORM row: the row with the same primary key is
replaced. -/
def setPayment (db : PaymentDB) (q : Payment) : PaymentDB :=
  { db with payments := db.payments.map (fun x => if x.id == q.id then q else x) }

/-- `PaymentService.add_payment_history`: inserts one `PaymentHistory` row and
commits. -/
def addPaymentHistory (db : PaymentDB) (e : PaymentHistory) : PaymentDB :=
  { db with history := db.history ++ [e] }

/-- The row mutation performed by `PaymentService.update_payment_status`:
set the new status, bump `updated_at`, and stamp `paid_at` / `refunded_at`
when the new status is `succeeded` / `refunded`. -/
def Payment.applyStatus (p : Payment) (s : PaymentStatus) (now : Int) : Payment :=
  { p with
    status := s
    updatedAt := now
    paidAt := if s = .succeeded then some now else p.paidAt
    refundedAt := if s = .refunded then some now else p.refundedAt }

/-- The history row written by `update_payment_status`:
`f"status_changed_to_{new_status.value}"` with the old and new status values. -/
def statusChangeEntry (pid : Nat) (oldS newS : PaymentStatus)
    (meta : Option String) : PaymentHistory :=
  { paymentId := pid
    eventType := "status_changed_to_" ++ newS.value
    previousStatus := some oldS.value
    newStatus := some newS.value
    metadata := meta }

/-- `PaymentService.update_payment_status`.  `none` is the not-found path.
On success the method commits twice — first the row mutation, then the
history insert — so the model returns both committed states `(db1, db2)`;
`db2` is the final state. -/
def updatePaymentStatus (db : PaymentDB) (pid : Nat) (newStatus : PaymentStatus)
    (meta : Option String) (now : Int) : Option (PaymentDB × PaymentDB) :=
  (getPayment db pid).map (fun p =>
    let db1 := setPayment db (p.applyStatus newStatus now)
    (db1, addPaymentHistory db1 (statusChangeEntry pid p.status newStatus meta)))

/-- The JSON string `json.dumps({"failure_reason": ..., "failure_code": ...})`
stored in the failure history row's metadata column. -/
def failureMetadata (reason : String) (code : Option String) : String :=
  "\x7b\"failure_reason\": \"" ++ reason ++ "\", \"failure_code\": " ++
    (match code with
     | some c => "\"" ++ c ++ "\""
     | none => "null") ++ "\x7d"

/-- The row mutation performed by `PaymentService.process_failed_payment`:
status to `failed`, record the failure reason/code, increment `retry_count`,
and always schedule `next_retry_at := now + 2 ** retry_count` hours (with the
already-incremented count).  `updated_at` is bumped by the column's
`onupdate` hook on commit. -/
def Payment.applyFailure (p : Payment) (reason : String) (code : Option String)
    (now : Int) : Payment :=
  { p with
    status := .failed
    failureReason := some reason
    failureCode := code
    retryCount := p.retryCount + 1
    nextRetryAt := some (now + 2 ^ (p.retryCount + 1))
    updatedAt := now }

/-- The history row written by `process_failed_payment`: event
`"payment_failed"`, `previous_status=None`, `new_status="failed"`. -/
def failureEntry (pid : Nat) (reason : String) (code : Option String) : PaymentHistory :=
  { paymentId := pid
    eventType := "payment_failed"
    previousStatus := none
    newStatus := some PaymentStatus.failed.value
    metadata := some (failureMetadata reason code) }

/-- `PaymentService.process_failed_payment`: not-found gives `none`; otherwise
the row mutation is committed, then the history insert is committed, giving
the two committed states `(db1, db2)`. -/
def processFailedPayment (db : PaymentDB) (pid : Nat) (reason : String)
    (code : Option String) (now : Int) : Option (PaymentDB × PaymentDB) :=
  (getPayment db pid).map (fun p =>
    let db1 := setPayment db (p.applyFailure reason code now)
    (db1, addPaymentHistory db1 (failureEntry pid reason code)))

/-- The history row written by `create_payment`: event `"created"`,
`previous_status=None`, `new_status` hard-coded to `PaymentStatus.PENDING.value`
(even when the row was inserted as `processing`). -/
def createdEntry (pid : Nat) : PaymentHistory :=
  { paymentId := pid
    eventType := "created"
    previousStatus := none
    newStatus := some PaymentStatus.pending.value
    metadata := none }

/-- `PaymentService.create_payment`.  `memberExists` is the outcome of the
member lookup (`none` is returned when it fails); `intentCreated` stands for
the outcome of the external Stripe payment-intent call, which switches the
inserted status from `pending` to `processing` on the card/auto-process path.
The insert is committed, then the history insert is committed. -/
def createPayment (db : PaymentDB) (memberExists : Bool) (newId memberId : Nat)
    (amount : ℚ) (methodIsCard autoProcess intentCreated : Bool) (now : Int) :
    Option (PaymentDB × PaymentDB) :=
  if memberExists then
    let status := if methodIsCard && autoProcess && intentCreated then
        PaymentStatus.processing
      else PaymentStatus.pending
    let p : Payment :=
      { id := newId
        memberId := memberId
        amount := amount
        status := status
        failureReason := none
        failureCode := none
        retryCount := 0
        nextRetryAt := none
        paidAt := none
        refundedAt := none
        updatedAt := now }
    let db1 : PaymentDB := { db with payments := db.payments ++ [p] }
    some (db1, addPaymentHistory db1 (createdEntry newId))
  else none

/-- The WHERE clause of `get_failed_payments_for_retry`: status `failed`,
`retry_count < 5`, and `next_retry_at <= now` (a NULL `next_retry_at` fails
the SQL comparison). -/
def retryablePred (now : Int) (p : Payment) : Bool :=
  decide (p.status = PaymentStatus.failed) && decide (p.retryCount < 5) &&
    (match p.nextRetryAt with
     | some t => decide (t ≤ now)
     | none => false)

/-- The ORDER BY key relation of `get_failed_payments_for_retry`: ascending
`next_retry_at` (every selected row has a non-NULL `next_retry_at`). -/
def retryLe (a b : Payment) : Prop :=
  a.nextRetryAt.getD 0 ≤ b.nextRetryAt.getD 0

instance : DecidableRel retryLe := fun a b =>
  inferInstanceAs (Decidable (a.nextRetryAt.getD 0 ≤ b.nextRetryAt.getD 0))

instance : IsTotal Payment retryLe :=
  ⟨fun a b => le_total (a.nextRetryAt.getD 0) (b.nextRetryAt.getD 0)⟩

instance : IsTrans Payment retryLe :=
  ⟨fun _ _ _ h1 h2 => le_trans h1 h2⟩

/-- `PaymentService.get_failed_payments_for_retry`: the rows satisfying the
WHERE clause, ordered by `next_retry_at` ascending. -/
def getFailedPaymentsForRetry (db : PaymentDB) (now : Int) : List Payment :=
  List.insertionSort retryLe (db.payments.filter (retryablePred now))

/-! ### Churn-risk scoring (`MemberEngagementAgent`) -/

/-- `MemberEngagementAgent.predict_churn_risk`, as a function of the member
columns it reads.  Timestamps are whole days (`datetime` subtraction in the
source takes `.days`); `now` is the current day.  Scores are exact rationals
standing for the source's floating-point literals. -/
def predictChurnRisk (lastCheckIn : Option Int) (totalCheckIns : Nat)
    (membershipEndDate : Option Int) (now : Int) : ℚ :=
  let recency : ℚ :=
    match lastCheckIn with
    | some d =>
        if now - d > 14 then 4/10
        else if now - d > 7 then 2/10
        else 0
    | none => 4/10
  let frequency : ℚ :=
    if totalCheckIns < 5 then 3/10
    else if totalCheckIns < 10 then 15/100
    else 0
  let expiry : ℚ :=
    match membershipEndDate with
    | some e =>
        if e - now < 7 then 3/10
        else if e - now < 14 then 15/100
        else 0
    | none => 0
  min (recency + frequency + expiry) 1

/-- `MemberEngagementAgent._get_retention_recommendation`. -/
def getRetentionRecommendation (riskScore : ℚ) : String :=
  if riskScore ≥ 8/10 then "URGENT: Immediate personal outreach required"
  else if riskScore ≥ 6/10 then "HIGH: Send personalized retention offer"
  else if riskScore ≥ 4/10 then "MEDIUM: Automated engagement campaign"
  else "LOW: Standard member nurturing"

/-! ### Maintenance prediction (`OperationsAgent`) -/

/-- `EquipmentStatus` enumeration from `app/models/equipment.py`. -/
inductive EquipmentStatus where
  | operational
  | maintenanceNeeded
  | underMaintenance
  | outOfService
deriving DecidableEq

/-- `EquipmentCategory` enumeration from `app/models/equipment.py`. -/
inductive EquipmentCategory where
  | cardio
  | strength
  | freeWeights
  | functional
  | other
deriving DecidableEq

/-- The equipment columns the operations agent reads.  Timestamps are whole
days. -/
structure Equipment where
  totalUsageCount : Nat
  lastMaintenanceDate : Option Int
  purchaseDate : Option Int
  status : EquipmentStatus
  category : EquipmentCategory
deriving DecidableEq

/-- `OperationsAgent._estimate_days_until_failure`.  The first comparison is
against `threshold * 1.5`, an exact product in the rationals. -/
def estimateDaysUntilFailure (e : Equipment) (usageThreshold : Nat) : Nat :=
  if (e.totalUsageCount : ℚ) > (usageThreshold : ℚ) * (15/10) then 7
  else if e.totalUsageCount > usageThreshold then 14
  else 30

/-- The dictionary returned by `OperationsAgent._predict_equipment_maintenance`. -/
structure MaintenancePrediction where
  needsMaintenance : Bool
  confidence : ℚ
  reasons : List String
  estimatedDaysUntilFailure : Nat
deriving DecidableEq

/-- `OperationsAgent._predict_equipment_maintenance`, with the three factors
applied in source order to the `(needs_maintenance, reasons, confidence)`
accumulator.  The maintenance-date and never-maintained branches are mutually
exclusive (`if`/`else` in the source). -/
def predictEquipmentMaintenance (e : Equipment) (now : Int)
    (usageThreshold : Nat) : MaintenancePrediction :=
  let s0 : Bool × List String × ℚ := (false, [], 0)
  let s1 :=
    if e.totalUsageCount > usageThreshold then
      (true, s0.2.1 ++ ["High usage count: " ++ toString e.totalUsageCount ++ " uses"],
        s0.2.2 + 3/10)
    else s0
  let s2 :=
    match e.lastMaintenanceDate with
    | some d =>
        if now - d > 90 then
          (true, s1.2.1 ++ ["Last maintenance " ++ toString (now - d) ++ " days ago"],
            s1.2.2 + 4/10)
        else s1
    | none =>
        match e.purchaseDate with
        | some pd =>
            if now - pd > 180 then
              (true, s1.2.1 ++ ["Never maintained"], s1.2.2 + 5/10)
            else s1
        | none => s1
  let s3 :=
    if e.status = .maintenanceNeeded then
      (true, s2.2.1 ++ ["Already marked for maintenance"], s2.2.2 + 3/10)
    else s2
  { needsMaintenance := s3.1
    confidence := min s3.2.2 1
    reasons := s3.2.1
    estimatedDaysUntilFailure := estimateDaysUntilFailure e usageThreshold }

/-! ### Financial heuristics (`FinancialAgent`) -/

/-- Rounding to two decimal places, the model of Python's `round(x, 2)` on the
exact rational value. -/
def round2 (q : ℚ) : ℚ := ((round (q * 100) : ℤ) : ℚ) / 100

/-- The fixed monthly growth rate assumed by `FinancialAgent.forecast_revenue`. -/
def growthRate : ℚ := 5/100

/-- The numeric fields of the dictionary returned by
`FinancialAgent.forecast_revenue`. -/
structure RevenueForecast where
  currentMrr : ℚ
  forecast30 : ℚ
  forecast60 : ℚ
  forecast90 : ℚ
deriving DecidableEq

/-- `current_mrr` as aggregated by `forecast_revenue`: the sum of
`price × member_count` over the active-plan distribution. -/
def currentMrrOfDistribution (dist : List (ℚ × Nat)) : ℚ :=
  (dist.map (fun pc => pc.1 * (pc.2 : ℚ))).sum

/-- The projection part of `FinancialAgent.forecast_revenue`: each reported
value is rounded to two decimal places; the forecasts scale the raw MRR by
`1 + growth_rate`, `1 + growth_rate * 2`, `1 + growth_rate * 3`. -/
def forecastRevenue (mrr : ℚ) : RevenueForecast :=
  { currentMrr := round2 mrr
    forecast30 := round2 (mrr * (1 + growthRate))
    forecast60 := round2 (mrr * (1 + growthRate * 2))
    forecast90 := round2 (mrr * (1 + growthRate * 3)) }

/-- The discount chosen by `FinancialAgent._generate_renewal_offer`. -/
def discountPercentage (totalCheckIns : Nat) : ℚ :=
  if totalCheckIns > 50 then 10
  else if totalCheckIns < 5 then 15
  else 0

/-- `FinancialAgent._get_offer_type`. -/
def offerType (totalCheckIns : Nat) : String :=
  if totalCheckIns > 50 then "loyalty_reward"
  else if totalCheckIns < 5 then "re_engagement"
  else "standard_renewal"

/-- The dictionary returned by `FinancialAgent._generate_renewal_offer`. -/
structure RenewalOffer where
  basePrice : ℚ
  discountPercentage : ℚ
  finalPrice : ℚ
  offerType : String
deriving DecidableEq

/-- `FinancialAgent._generate_renewal_offer`: the discounted price is rounded
to two decimal places; the base price is reported unrounded. -/
def generateRenewalOffer (planPrice : ℚ) (totalCheckIns : Nat) : RenewalOffer :=
  let d := discountPercentage totalCheckIns
  { basePrice := planPrice
    discountPercentage := d
    finalPrice := round2 (planPrice * (1 - d/100))
    offerType := offerType totalCheckIns }

/-! ### Orchestrator (`BaseAgent.run`, `app/agents/base/state.py`) -/

/-- `AgentStatus` enumeration from `app/agents/base/state.py`. -/
inductive AgentStatus where
  | idle
  | running
  | completed
  | failed
  | paused
deriving DecidableEq

/-- The fields of the `AgentResult` model that `BaseAgent.run` constructs or
passes through.  `executionTime` defaults to `0.0` in the source model and
changes only when code explicitly records it. -/
structure AgentResult where
  status : AgentStatus
  success : Bool
  errors : List String
  executionTime : ℚ
deriving DecidableEq

/-- The fields of the mutable `AgentState` that `BaseAgent.run` touches. -/
structure AgentState where
  status : AgentStatus
  errors : List String
  startedAt : Option Int
  completedAt : Option Int
deriving DecidableEq

/-- The possible outcomes of awaiting `self.execute(context)` under
`asyncio.wait_for`: a returned result, a raised exception (with its message),
or cancellation by the timeout. -/
inductive ExecOutcome where
  | completed (r : AgentResult)
  | raised (msg : String)
  | timedOut
deriving DecidableEq

/-- `BaseAgent.run`: marks the state running, awaits `execute` with a timeout,
and maps each outcome to a final `(state, result)` pair exactly as the three
branches of the source do.  `startTime` and `endTime` are the wall-clock
instants the source reads with `datetime.utcnow()`. -/
def runAgent (st : AgentState) (outcome : ExecOutcome)
    (startTime endTime : Int) : AgentState × AgentResult :=
  let st1 : AgentState := { st with status := .running, startedAt := some startTime }
  match outcome with
  | .completed r =>
      ({ st1 with status := .completed, completedAt := some endTime }, r)
  | .raised msg =>
      ({ st1 with status := .failed, errors := st1.errors ++ [msg] },
        { status := .failed, success := false, errors := [msg], executionTime := 0 })
  | .timedOut =>
      ({ st1 with status := .failed, errors := st1.errors ++ ["Agent execution timed out"] },
        { status := .failed, success := false, errors := ["Execution timed out"],
          executionTime := 0 })

/-! ### Concrete instances used by the scenario theorems -/

/-- A payment in the terminal `refunded` state. -/
def samplePayment : Payment :=
  { id := 1
    memberId := 7
    amount := 25
    status := .refunded
    failureReason := none
    failureCode := none
    retryCount := 0
    nextRetryAt := none
    paidAt := some 10
    refundedAt := some 20
    updatedAt := 20 }

/-- A one-payment database holding `samplePayment` with an empty history. -/
def sampleDB : PaymentDB := { payments := [samplePayment], history := [] }

/-- A `processing` payment that has already failed four times. -/
def processingPayment : Payment :=
  { id := 2
    memberId := 8
    amount := 40
    status := .processing
    failureReason := none
    failureCode := none
    retryCount := 4
    nextRetryAt := some 10
    paidAt := none
    refundedAt := none
    updatedAt := 5 }

/-- A one-payment database holding `processingPayment` with an empty history. -/
def processingDB : PaymentDB := { payments := [processingPayment], history := [] }

/-- The equipment snapshot of the maintenance scenario: usage 1500, never
maintained, purchased on day 0, operational cardio machine. -/
def sampleEquipment : Equipment :=
  { totalUsageCount := 1500
    lastMaintenanceDate := none
    purchaseDate := some 0
    status := .operational
    category := .cardio }

/-- A fresh idle agent state. -/
def sampleAgentState : AgentState :=
  { status := .idle, errors := [], startedAt := none, completedAt := none }

/-! ### Helper lemmas -/

/-- Replacing, by primary key, the row that `find?` locates makes the
replacement the row subsequently located under the same id. -/
theorem find?_replace (l : List Payment) (pid : Nat) (p q : Payment)
    (h : l.find? (fun x => x.id == pid) = some p) (hq : q.id = p.id) :
    (l.map (fun x => if x.id == q.id then q else x)).find? (fun x => x.id == pid)
      = some q := by
  have hp : p.id = pid := by simpa using List.find?_some h
  induction l with
  | nil => simp at h
  | cons a l ih =>
    simp only [List.map_cons]
    by_cases ha : a.id = pid
    · have hpa : a = p := by
        rw [List.find?_cons_of_pos _ (by simpa using ha)] at h
        exact Option.some.inj h
      rw [if_pos (by simp [ha, hq, hp])]
      rw [List.find?_cons_of_pos _ (by simpa using hq.trans hp)]
    · rw [if_neg (by simp [hq, hp]; exact fun e => ha e)]
      rw [List.find?_cons_of_neg _ (by simpa using ha)]
      rw [List.find?_cons_of_neg _ (by simpa using ha)] at h
      exact ih h

/-- `setPayment` updates the row later returned by `getPayment` when the ids
agree. -/
theorem getPayment_setPayment (db : PaymentDB) (pid : Nat) (p q : Payment)
    (h : getPayment db pid = some p) (hq : q.id = p.id) :
    getPayment (setPayment db q) pid = some q :=
  find?_replace db.payments pid p q h hq

/-- Appending a history row leaves the payments table untouched. -/
theorem getPayment_addHistory (db : PaymentDB) (e : PaymentHistory) (pid : Nat) :
    getPayment (addPaymentHistory db e) pid = getPayment db pid := rfl

/-- Characterization of the retryable WHERE clause. -/
theorem retryablePred_iff (now : Int) (p : Payment) :
    retryablePred now p = true ↔
      (p.status = PaymentStatus.failed ∧ p.retryCount < 5 ∧
        ∃ t, p.nextRetryAt = some t ∧ t ≤ now) := by
  unfold retryablePred
  cases hn : p.nextRetryAt with
  | none => simp
  | some t => simp [and_assoc]

/-! ### C1 — transitions from terminal states -/

/-- C1 counterexample: the claim says requesting a transition from a terminal
state other than the administrative cancel (here `refunded` → `processing`)
signals InvalidTransition and leaves the row and the history log unchanged.
In the code `update_payment_status` has no terminal-state check: on this
refunded payment the request succeeds, the row's status becomes `processing`,
and one history entry is written. -/
theorem C1_counterexample :
    ((updatePaymentStatus sampleDB 1 PaymentStatus.processing none 30).map
        (fun r => (r.2.payments.map Payment.status, r.2.history.length)))
      = some ([PaymentStatus.processing], 1) ∧
    sampleDB.payments.map Payment.status = [PaymentStatus.refunded] ∧
    sampleDB.history = [] := by
  decide

/-- C1 (amended): `update_payment_status` performs any requested transition
unconditionally, from every current status including the terminal ones
(`succeeded`, `refunded`, `canceled`): the row is mutated (status,
`updated_at`, and `paid_at`/`refunded_at` when the new status is
`succeeded`/`refunded`) and exactly one history entry recording the actual
previous and new statuses is appended.  No InvalidTransition condition is
signalled anywhere; the only failure path is not-found. -/
theorem C1_amended (db : PaymentDB) (pid : Nat) (p : Payment)
    (s : PaymentStatus) (meta : Option String) (now : Int)
    (h : getPayment db pid = some p) :
    ∃ db1 db2, updatePaymentStatus db pid s meta now = some (db1, db2) ∧
      getPayment db2 pid = some (p.applyStatus s now) ∧
      db2.history = db.history ++ [statusChangeEntry pid p.status s meta] := by
  have hrun : updatePaymentStatus db pid s meta now =
      some (setPayment db (p.applyStatus s now),
        addPaymentHistory (setPayment db (p.applyStatus s now))
          (statusChangeEntry pid p.status s meta)) := by
    unfold updatePaymentStatus
    rw [h, Option.map_some']
  refine ⟨_, _, hrun, ?_, rfl⟩
  rw [getPayment_addHistory]
  exact getPayment_setPayment db pid p _ h rfl

/-- C1 witness: the amended theorem applied to the refunded sample payment. -/
theorem C1_amended_witness :
    getPayment sampleDB 1 = some samplePayment ∧
    ∃ db1 db2,
      updatePaymentStatus sampleDB 1 PaymentStatus.processing none 30 = some (db1, db2) ∧
      getPayment db2 1 = some (samplePayment.applyStatus PaymentStatus.processing 30) ∧
      db2.history = sampleDB.history ++
        [statusChangeEntry 1 samplePayment.status PaymentStatus.processing none] :=
  ⟨rfl, C1_amended sampleDB 1 samplePayment PaymentStatus.processing none 30 rfl⟩

/-! ### C2 — failure processing and retry scheduling -/

/-- C2 counterexample: the claim says that when the incremented `retry_count`
reaches 5 no further automatic retry is scheduled and `next_retry_at` is not
set.  Processing a failure of `processingPayment` (`retry_count = 4`) at time
100 yields `retry_count = 5` with `next_retry_at = some (100 + 2^5) = some 132`
— the code unconditionally schedules `now + 2^retry_count` hours. -/
theorem C2_counterexample :
    ((processFailedPayment processingDB 2 "card_declined" none 100).map
        (fun r => (r.2.payments.map Payment.retryCount,
          r.2.payments.map Payment.nextRetryAt)))
      = some ([5], [some 132]) := by
  decide

/-- C2 (amended): every processed failure increments `retry_count` by exactly
one and always sets `next_retry_at = now + 2^retry_count` hours with the
already-incremented count — so attempts 1 through 5 are delayed 2, 4, 8, 16,
32 hours in order, and further failures keep scheduling (64 hours, ...).  The
≥ 5 cap is enforced solely by the retryable query: once the new count reaches
5 the payment fails the `retry_count < 5` filter for every `now`, so no
automatic retry occurs even though `next_retry_at` is set. -/
theorem C2_amended (db : PaymentDB) (pid : Nat) (p : Payment) (reason : String)
    (code : Option String) (now : Int) (h : getPayment db pid = some p) :
    ∃ db1 db2, processFailedPayment db pid reason code now = some (db1, db2) ∧
      getPayment db2 pid = some (p.applyFailure reason code now) ∧
      (p.applyFailure reason code now).retryCount = p.retryCount + 1 ∧
      (p.applyFailure reason code now).nextRetryAt = some (now + 2 ^ (p.retryCount + 1)) ∧
      (∀ t : Int, 5 ≤ p.retryCount + 1 →
        retryablePred t (p.applyFailure reason code now) = false) := by
  have hrun : processFailedPayment db pid reason code now =
      some (setPayment db (p.applyFailure reason code now),
        addPaymentHistory (setPayment db (p.applyFailure reason code now))
          (failureEntry pid reason code)) := by
    unfold processFailedPayment
    rw [h, Option.map_some']
  refine ⟨_, _, hrun, ?_, rfl, rfl, ?_⟩
  · rw [getPayment_addHistory]
    exact getPayment_setPayment db pid p _ h rfl
  · intro t h5
    have hlt : ¬ (p.retryCount + 1 < 5) := by omega
    simp [retryablePred, Payment.applyFailure, hlt]

/-- C2 witness: the amended theorem applied to the fourth-failure payment. -/
theorem C2_amended_witness :
    getPayment processingDB 2 = some processingPayment ∧
    ∃ db1 db2,
      processFailedPayment processingDB 2 "card_declined" none 100 = some (db1, db2) ∧
      getPayment db2 2 = some (processingPayment.applyFailure "card_declined" none 100) ∧
      (processingPayment.applyFailure "card_declined" none 100).retryCount =
        processingPayment.retryCount + 1 ∧
      (processingPayment.applyFailure "card_declined" none 100).nextRetryAt =
        some (100 + 2 ^ (processingPayment.retryCount + 1)) ∧
      (∀ t : Int, 5 ≤ processingPayment.retryCount + 1 →
        retryablePred t (processingPayment.applyFailure "card_declined" none 100) = false) :=
  ⟨rfl, C2_amended processingDB 2 processingPayment "card_declined" none 100 rfl⟩

/-! ### C3 — history entries and atomicity -/

/-- C3 counterexample: the claim says every mutation appends a history entry
recording the payment's actual previous status, atomically with the mutation.
Processing a failure of the `processing` payment writes an entry whose
`previous_status` is `None` (not `"processing"`), and the state committed
between the two commits (`r.1`) already carries the failed row while the
history is still empty — partial state is visible. -/
theorem C3_counterexample :
    ((processFailedPayment processingDB 2 "card_declined" none 50).map
        (fun r => (r.2.history.map PaymentHistory.previousStatus,
          r.1.history.length, r.1.payments.map Payment.status)))
      = some ([none], 0, [PaymentStatus.failed]) ∧
    processingDB.payments.map Payment.status = [PaymentStatus.processing] := by
  decide

/-- C3 (amended): each mutation appends exactly one history entry, but the
recorded statuses and the atomicity differ from the claim:
`update_payment_status` records the actual previous and new statuses;
`process_failed_payment` records `previous_status = None`; `create_payment`
records `None → "pending"`.  In every case the status mutation and the
history append are two separate commits: the intermediate committed state
`db1` carries the mutated row (resp. the inserted row) with the history still
unchanged, so a partial state is visible between the commits. -/
theorem C3_amended (db : PaymentDB) (pid : Nat) (p : Payment) (s : PaymentStatus)
    (meta : Option String) (reason : String) (code : Option String) (now : Int)
    (nid mid : Nat) (amt : ℚ) (card auto intent : Bool)
    (h : getPayment db pid = some p) :
    (∃ db1 db2, updatePaymentStatus db pid s meta now = some (db1, db2) ∧
        db2.history = db.history ++ [statusChangeEntry pid p.status s meta] ∧
        db1.history = db.history ∧
        getPayment db1 pid = some (p.applyStatus s now)) ∧
    (∃ db1 db2, processFailedPayment db pid reason code now = some (db1, db2) ∧
        db2.history = db.history ++ [failureEntry pid reason code] ∧
        (failureEntry pid reason code).previousStatus = none ∧
        db1.history = db.history ∧
        getPayment db1 pid = some (p.applyFailure reason code now)) ∧
    (∃ db1 db2, createPayment db true nid mid amt card auto intent now = some (db1, db2) ∧
        db2.history = db.history ++ [createdEntry nid] ∧
        (createdEntry nid).newStatus = some "pending" ∧
        db1.history = db.history) := by
  refine ⟨?_, ?_, ?_⟩
  · have hrun : updatePaymentStatus db pid s meta now =
        some (setPayment db (p.applyStatus s now),
          addPaymentHistory (setPayment db (p.applyStatus s now))
            (statusChangeEntry pid p.status s meta)) := by
      unfold updatePaymentStatus
      rw [h, Option.map_some']
    exact ⟨_, _, hrun, rfl, rfl, getPayment_setPayment db pid p _ h rfl⟩
  · have hrun : processFailedPayment db pid reason code now =
        some (setPayment db (p.applyFailure reason code now),
          addPaymentHistory (setPayment db (p.applyFailure reason code now))
            (failureEntry pid reason code)) := by
      unfold processFailedPayment
      rw [h, Option.map_some']
    exact ⟨_, _, hrun, rfl, rfl, rfl, getPayment_setPayment db pid p _ h rfl⟩
  · exact ⟨_, _, rfl, rfl, rfl, rfl⟩

/-- C3 witness: the amended theorem applied to the fourth-failure payment. -/
theorem C3_amended_witness :
    getPayment processingDB 2 = some processingPayment ∧
    ((∃ db1 db2,
        updatePaymentStatus processingDB 2 PaymentStatus.succeeded none 60 = some (db1, db2) ∧
        db2.history = processingDB.history ++
          [statusChangeEntry 2 processingPayment.status PaymentStatus.succeeded none] ∧
        db1.history = processingDB.history ∧
        getPayment db1 2 = some (processingPayment.applyStatus PaymentStatus.succeeded 60)) ∧
      (∃ db1 db2,
        processFailedPayment processingDB 2 "expired_card" (some "E42") 60 = some (db1, db2) ∧
        db2.history = processingDB.history ++ [failureEntry 2 "expired_card" (some "E42")] ∧
        (failureEntry 2 "expired_card" (some "E42")).previousStatus = none ∧
        db1.history = processingDB.history ∧
        getPayment db1 2 = some (processingPayment.applyFailure "expired_card" (some "E42") 60)) ∧
      (∃ db1 db2,
        createPayment processingDB true 9 8 30 false false false 60 = some (db1, db2) ∧
        db2.history = processingDB.history ++ [createdEntry 9] ∧
        (createdEntry 9).newStatus = some "pending" ∧
        db1.history = processingDB.history)) :=
  ⟨rfl, C3_amended processingDB 2 processingPayment PaymentStatus.succeeded none
    "expired_card" (some "E42") 60 9 8 30 false false false rfl⟩

/-! ### C4 — the retryable-payments query -/

/-- C4: `get_failed_payments_for_retry` returns exactly the payments with
status `failed`, `retry_count < 5`, and a `next_retry_at` that is set and
`≤ now` (so every payment with `retry_count ≥ 5` is excluded), as a
permutation of the filtered table ordered by `next_retry_at` ascending. -/
theorem C4 (db : PaymentDB) (now : Int) :
    (∀ p, p ∈ getFailedPaymentsForRetry db now ↔
        (p ∈ db.payments ∧ p.status = PaymentStatus.failed ∧ p.retryCount < 5 ∧
          ∃ t, p.nextRetryAt = some t ∧ t ≤ now)) ∧
    (getFailedPaymentsForRetry db now).Sorted retryLe ∧
    (getFailedPaymentsForRetry db now).Perm (db.payments.filter (retryablePred now)) := by
  refine ⟨?_, ?_, ?_⟩
  · intro p
    unfold getFailedPaymentsForRetry
    rw [List.mem_insertionSort, List.mem_filter, retryablePred_iff]
  · exact List.sorted_insertionSort retryLe _
  · exact List.perm_insertionSort retryLe _

/-! ### C5 — churn-risk scenario and tiers -/

/-- C5: a member with `total_check_ins = 3`, no last check-in, and no
membership end date scores exactly `0.7 = 0.4 + 0.3 + 0`, which classifies
into the "HIGH / personalized offer" tier; the tier boundaries are inclusive
on the lower bound (`0.8` is urgent, `0.6` high, `0.4` medium, below is low). -/
theorem C5 (now : Int) :
    predictChurnRisk none 3 none now = 7/10 ∧
    getRetentionRecommendation (predictChurnRisk none 3 none now) =
      "HIGH: Send personalized retention offer" ∧
    getRetentionRecommendation (8/10) = "URGENT: Immediate personal outreach required" ∧
    getRetentionRecommendation (6/10) = "HIGH: Send personalized retention offer" ∧
    getRetentionRecommendation (4/10) = "MEDIUM: Automated engagement campaign" ∧
    getRetentionRecommendation (39/100) = "LOW: Standard member nurturing" := by
  have h1 : predictChurnRisk none 3 none now = 7/10 := by
    unfold predictChurnRisk
    norm_num [min_def]
  rw [h1]
  refine ⟨rfl, ?_, ?_, ?_, ?_, ?_⟩ <;>
    · unfold getRetentionRecommendation
      norm_num

/-! ### C6 — maintenance-prediction scenario -/

/-- C6: equipment with usage 1500 against threshold 1000, never maintained,
purchased 200 days before now, status not already flagged: the prediction is
`needs_maintenance = true` with confidence exactly `0.8 = 0.3 + 0.5` and
`estimated_days_until_failure = 14`, because the strict comparison
`1500 > 1.5 × 1000` is false so the `> threshold` branch applies. -/
theorem C6 :
    (predictEquipmentMaintenance sampleEquipment 200 1000).needsMaintenance = true ∧
    (predictEquipmentMaintenance sampleEquipment 200 1000).confidence = 8/10 ∧
    (predictEquipmentMaintenance sampleEquipment 200 1000).estimatedDaysUntilFailure = 14 ∧
    ¬ ((sampleEquipment.totalUsageCount : ℚ) > (1000 : ℚ) * (15/10)) := by
  have hst : EquipmentStatus.operational ≠ EquipmentStatus.maintenanceNeeded :=
    fun hc => EquipmentStatus.noConfusion hc
  refine ⟨?_, ?_, ?_, by norm_num [sampleEquipment]⟩
  · unfold predictEquipmentMaintenance sampleEquipment
    norm_num [hst]
  · unfold predictEquipmentMaintenance sampleEquipment
    norm_num [hst, min_def]
  · unfold predictEquipmentMaintenance estimateDaysUntilFailure sampleEquipment
    norm_num

/-! ### C7 — revenue forecast linearity -/

/-- C7 counterexample: the claim asserts the equal-increment identity holds
for the reported values "including after the rounding to two decimal places".
At `current_mrr = 10.111` the reported values are 10.11, 10.62 and 11.12, so
`forecast_60 - forecast_30 = 0.50` while `forecast_30 - current_mrr = 0.51`. -/
theorem C7_counterexample :
    ¬ ((forecastRevenue (10111/1000)).forecast60 - (forecastRevenue (10111/1000)).forecast30
        = (forecastRevenue (10111/1000)).forecast30
            - (forecastRevenue (10111/1000)).currentMrr) := by
  have hm : (forecastRevenue (10111/1000)).currentMrr = 1011/100 := by
    unfold forecastRevenue round2
    norm_num [round_eq]
  have h30 : (forecastRevenue (10111/1000)).forecast30 = 1062/100 := by
    unfold forecastRevenue round2 growthRate
    norm_num [round_eq]
  have h60 : (forecastRevenue (10111/1000)).forecast60 = 1112/100 := by
    unfold forecastRevenue round2 growthRate
    norm_num [round_eq]
  rw [hm, h30, h60]
  norm_num

/-- C7 (amended): each reported forecast is the rounding to two decimals of
`current_mrr × (1 + 0.05 × N/30)` for N = 30, 60, 90, and the equal-increment
identity `forecast_60 - forecast_30 = forecast_30 - current_mrr` holds for
the unrounded values; after the per-value rounding the reported increments
can differ (by up to a cent), as the counterexample shows. -/
theorem C7_amended (mrr : ℚ) (h : 0 ≤ mrr) :
    (forecastRevenue mrr).currentMrr = round2 mrr ∧
    (forecastRevenue mrr).forecast30 = round2 (mrr * (1 + growthRate * (30/30))) ∧
    (forecastRevenue mrr).forecast60 = round2 (mrr * (1 + growthRate * (60/30))) ∧
    (forecastRevenue mrr).forecast90 = round2 (mrr * (1 + growthRate * (90/30))) ∧
    mrr * (1 + growthRate * (60/30)) - mrr * (1 + growthRate * (30/30))
      = mrr * (1 + growthRate * (30/30)) - mrr := by
  have e1 : (30:ℚ)/30 = 1 := by norm_num
  have e2 : (60:ℚ)/30 = 2 := by norm_num
  have e3 : (90:ℚ)/30 = 3 := by norm_num
  rw [e1, e2, e3, mul_one]
  exact ⟨rfl, rfl, rfl, rfl, by ring⟩

/-- C7 witness: the amended theorem at `current_mrr = 2`. -/
theorem C7_amended_witness :
    (0:ℚ) ≤ 2 ∧
    ((forecastRevenue 2).currentMrr = round2 2 ∧
      (forecastRevenue 2).forecast30 = round2 (2 * (1 + growthRate * (30/30))) ∧
      (forecastRevenue 2).forecast60 = round2 (2 * (1 + growthRate * (60/30))) ∧
      (forecastRevenue 2).forecast90 = round2 (2 * (1 + growthRate * (90/30))) ∧
      (2:ℚ) * (1 + growthRate * (60/30)) - 2 * (1 + growthRate * (30/30))
        = 2 * (1 + growthRate * (30/30)) - 2) :=
  ⟨by norm_num, C7_amended 2 (by norm_num)⟩

/-! ### C8 — renewal offers -/

/-- C8 counterexample: the claim asserts `final_price ≤ base_price` for every
plan price ≥ 0.  At base price 10.999 with 10 check-ins the discount is 0 and
`final_price = round(10.999, 2) = 11.00 > 10.999`. -/
theorem C8_counterexample :
    (generateRenewalOffer (10999/1000) 10).discountPercentage = 0 ∧
    (generateRenewalOffer (10999/1000) 10).finalPrice = 11 ∧
    ¬ ((generateRenewalOffer (10999/1000) 10).finalPrice ≤
        (generateRenewalOffer (10999/1000) 10).basePrice) := by
  refine ⟨?_, ?_, ?_⟩ <;>
    norm_num [generateRenewalOffer, discountPercentage, offerType, round2, round_eq]

/-- Rounding to two decimals cannot exceed an upper bound that is itself a
whole number of cents. -/
theorem round2_le_of_cents (x price : ℚ) (k : ℤ) (hx : x ≤ price)
    (hk : price * 100 = (k : ℚ)) : round2 x ≤ price := by
  have h1 : x * 100 ≤ (k : ℚ) := by
    calc x * 100 ≤ price * 100 := by linarith
    _ = (k : ℚ) := hk
  have h2 : round (x * 100) ≤ k := by
    rw [round_eq]
    calc ⌊x * 100 + 1/2⌋ ≤ ⌊(k : ℚ) + 1/2⌋ := Int.floor_le_floor (by linarith)
    _ = k + ⌊(1:ℚ)/2⌋ := Int.floor_int_add k _
    _ = k := by norm_num
  have h3 : ((round (x * 100) : ℤ) : ℚ) ≤ (k : ℚ) := by exact_mod_cast h2
  have hp : price = (k : ℚ) / 100 := by rw [← hk]; ring
  unfold round2
  rw [hp]
  linarith

/-- C8 (amended): the discount is 10 with offer type `loyalty_reward` when
`total_check_ins > 50`, 15 with `re_engagement` when `< 5`, and 0 with
`standard_renewal` otherwise, so it is always one of 0, 10, 15;
`final_price = round2(base_price × (1 − discount/100))`, and
`final_price ≤ base_price` holds whenever the base price is a whole number of
cents (the counterexample shows it can fail for a sub-cent base price). -/
theorem C8_amended (price : ℚ) (ci : Nat) (k : ℤ)
    (h0 : 0 ≤ price) (hk : price * 100 = (k : ℚ)) :
    ((generateRenewalOffer price ci).discountPercentage = 0 ∨
      (generateRenewalOffer price ci).discountPercentage = 10 ∨
      (generateRenewalOffer price ci).discountPercentage = 15) ∧
    (50 < ci → (generateRenewalOffer price ci).discountPercentage = 10 ∧
      (generateRenewalOffer price ci).offerType = "loyalty_reward") ∧
    (ci < 5 → (generateRenewalOffer price ci).discountPercentage = 15 ∧
      (generateRenewalOffer price ci).offerType = "re_engagement") ∧
    (5 ≤ ci → ci ≤ 50 → (generateRenewalOffer price ci).discountPercentage = 0 ∧
      (generateRenewalOffer price ci).offerType = "standard_renewal") ∧
    (generateRenewalOffer price ci).finalPrice =
      round2 (price * (1 - discountPercentage ci / 100)) ∧
    (generateRenewalOffer price ci).finalPrice ≤ price := by
  have hd3 : discountPercentage ci = 0 ∨ discountPercentage ci = 10 ∨
      discountPercentage ci = 15 := by
    unfold discountPercentage
    split
    · exact Or.inr (Or.inl rfl)
    · split
      · exact Or.inr (Or.inr rfl)
      · exact Or.inl rfl
  have hle : round2 (price * (1 - discountPercentage ci / 100)) ≤ price := by
    apply round2_le_of_cents _ _ k _ hk
    rcases hd3 with hd | hd | hd <;> rw [hd] <;> nlinarith [h0]
  refine ⟨hd3, ?_, ?_, ?_, rfl, hle⟩
  · intro h50
    refine ⟨?_, ?_⟩
    · show discountPercentage ci = 10
      unfold discountPercentage
      rw [if_pos h50]
    · show offerType ci = "loyalty_reward"
      unfold offerType
      rw [if_pos h50]
  · intro h5
    have h50 : ¬ ci > 50 := by omega
    refine ⟨?_, ?_⟩
    · show discountPercentage ci = 15
      unfold discountPercentage
      rw [if_neg h50, if_pos h5]
    · show offerType ci = "re_engagement"
      unfold offerType
      rw [if_neg h50, if_pos h5]
  · intro hge hle50
    have h50 : ¬ ci > 50 := by omega
    have h5 : ¬ ci < 5 := by omega
    refine ⟨?_, ?_⟩
    · show discountPercentage ci = 0
      unfold discountPercentage
      rw [if_neg h50, if_neg h5]
    · show offerType ci = "standard_renewal"
      unfold offerType
      rw [if_neg h50, if_neg h5]

/-- C8 witness: the amended theorem at base price 10.00 (1000 cents) and 60
check-ins. -/
theorem C8_amended_witness :
    (0:ℚ) ≤ 10 ∧ (10:ℚ) * 100 = ((1000 : ℤ) : ℚ) ∧
    (((generateRenewalOffer 10 60).discountPercentage = 0 ∨
        (generateRenewalOffer 10 60).discountPercentage = 10 ∨
        (generateRenewalOffer 10 60).discountPercentage = 15) ∧
      (50 < 60 → (generateRenewalOffer 10 60).discountPercentage = 10 ∧
        (generateRenewalOffer 10 60).offerType = "loyalty_reward") ∧
      (60 < 5 → (generateRenewalOffer 10 60).discountPercentage = 15 ∧
        (generateRenewalOffer 10 60).offerType = "re_engagement") ∧
      (5 ≤ 60 → 60 ≤ 50 → (generateRenewalOffer 10 60).discountPercentage = 0 ∧
        (generateRenewalOffer 10 60).offerType = "standard_renewal") ∧
      (generateRenewalOffer 10 60).finalPrice =
        round2 (10 * (1 - discountPercentage 60 / 100)) ∧
      (generateRenewalOffer 10 60).finalPrice ≤ 10) :=
  ⟨by norm_num, by norm_num, C8_amended 10 60 1000 (by norm_num) (by norm_num)⟩

/-! ### C9 — orchestrator timeout handling -/

/-- C9 counterexample: the claim says a timed-out run reports the single error
message "execution timed out" and records the wall-clock execution time.  The
code's timeout branch reports "Execution timed out" (capital E) and constructs
the result without setting `execution_time`, which therefore keeps its model
default 0.0 — not the elapsed wall-clock time (301 s here). -/
theorem C9_counterexample :
    (runAgent sampleAgentState ExecOutcome.timedOut 0 301).2.errors
      = ["Execution timed out"] ∧
    (runAgent sampleAgentState ExecOutcome.timedOut 0 301).2.errors
      ≠ ["execution timed out"] ∧
    (runAgent sampleAgentState ExecOutcome.timedOut 0 301).2.executionTime = 0 ∧
    (runAgent sampleAgentState ExecOutcome.timedOut 0 301).2.success = false := by
  refine ⟨rfl, ?_, rfl, rfl⟩
  decide

/-- C9 (amended): a timed-out run returns (does not raise) a failed result
whose errors list is exactly `["Execution timed out"]` and whose
`execution_time` is left at the model default 0.0 — `run` does not record the
wall-clock time on the timeout or exception paths; the state logs
"Agent execution timed out" and is marked failed.  A run of a raised
exception likewise returns a failed result with the message as sole error and
default execution time, and a completed run passes `execute`'s result through
unchanged. -/
theorem C9_amended (st : AgentState) (msg : String) (r : AgentResult) (s e : Int) :
    (runAgent st ExecOutcome.timedOut s e).2 =
      { status := .failed, success := false, errors := ["Execution timed out"],
        executionTime := 0 } ∧
    (runAgent st ExecOutcome.timedOut s e).1.status = AgentStatus.failed ∧
    (runAgent st ExecOutcome.timedOut s e).1.errors
      = st.errors ++ ["Agent execution timed out"] ∧
    (runAgent st (ExecOutcome.raised msg) s e).2 =
      { status := .failed, success := false, errors := [msg], executionTime := 0 } ∧
    (runAgent st (ExecOutcome.completed r) s e).2 = r :=
  ⟨rfl, rfl, rfl, rfl, rfl⟩

/-! ### C10 — days-until-failure is three-valued -/

/-- C10: for every equipment snapshot and threshold, the estimated days until
failure is 7, 14, or 30 — no other value is ever returned. -/
theorem C10 (e : Equipment) (usageThreshold : Nat) :
    estimateDaysUntilFailure e usageThreshold = 7 ∨
    estimateDaysUntilFailure e usageThreshold = 14 ∨
    estimateDaysUntilFailure e usageThreshold = 30 := by
  unfold estimateDaysUntilFailure
  split
  · exact Or.inl rfl
  · split
    · exact Or.inr (Or.inl rfl)
    · exact Or.inr (Or.inr rfl)

end GymAI
